import Mathlib

/-!
Shallow embedding of the chromadb-cli tool (src/main.py) and verification of
its specification claims.

The program is a thin CLI over an external vector-database client. Each
command handler performs one or two collaborator calls and renders the
outcome. We embed:

  - the configuration file resolution (load_config, main.py lines 16-26)
    and the configuration-loading calls actually executed by an invocation
    (the module-level load_dotenv() at line 11);
  - the client factory (get_client, lines 29-45);
  - the verbose environment echo of the cli group callback (lines 55-60);
  - the six operation handlers (create, delete, list, peek, search, stats),
    each as a function from the behaviour of its collaborator calls
    (success values or raised errors, modelled with Except) to an Outcome
    recording the rendered lines, whether an uncaught exception escaped the
    handler, and the resulting process exit status.

Host-language semantics used by the embedding: a Python handler that
returns normally makes the click process exit with status 0; an exception
that escapes a handler is an uncaught crash, the interpreter prints a
traceback (not a line rendered by the tool) and exits with status 1.
Floating-point distance values are abstracted as their already-rendered
strings (the source formats them with a 4-decimal f-string); only their
placement is modelled, never their numeric value.
-/

namespace Chroma

/-- A single-quote character, used in rendered confirmation messages. -/
def squote : String := String.mk [Char.ofNat 39]

/-- One user-visible unit of output produced through the rich console:
a plain (possibly colour-tagged) text line, a table with a header row and
data rows, or a titled panel of rows. -/
inductive Line where
  | info (s : String)
  | table (header : List String) (rows : List (List String))
  | panel (title : String) (rows : List (List String))
deriving DecidableEq, Repr

/-- The error line rendered by every except block in main.py:
console.print of "[red]Error: " followed by str(e). -/
def error_line (e : String) : Line := Line.info ("[red]Error: " ++ e)

/-- Observable outcome of running one handler: the lines it rendered, whether
an exception escaped it uncaught, and the process exit status. -/
structure Outcome where
  lines : List Line
  crashed : Bool
  exitCode : Nat
deriving DecidableEq, Repr

/-- Outcome of a handler whose try block raised and whose except block ran
(main.py lines 93-94, 105-106, 165-166, 203-204, 233-234): one red error
line is rendered, the handler returns normally, the process exits 0. -/
def handled_error_outcome (e : String) : Outcome :=
  ⟨[error_line e], false, 0⟩

/-- Outcome of a handler that let an exception escape: nothing is rendered by
the tool (the interpreter prints a traceback) and the process exits 1. -/
def crash_outcome : Outcome := ⟨[], true, 1⟩

/-! ## Configuration resolution (main.py lines 11 and 16-26) -/

/-- Which .env files exist, for the three locations probed by load_config. -/
structure ConfigFS where
  cwd_env : Bool
  parent_env : Bool
  home_env : Bool
deriving DecidableEq, Repr

/-- The three candidate configuration files of load_config: ./.env, ../.env,
and the .env inside the .eureka-chroma subdirectory of the home directory. -/
inductive ConfigFile where
  | cwdFile
  | parentFile
  | homeFile
deriving DecidableEq, Repr

/-- Translation of load_config (main.py lines 16-26): an if/elif/elif chain
probing ./.env, then ../.env, then the home subdirectory file; the first one
that exists is loaded and the rest are ignored (no merging). Returns the file
that gets loaded, if any. -/
def load_config (fs : ConfigFS) : Option ConfigFile :=
  if fs.cwd_env then some ConfigFile.cwdFile
  else if fs.parent_env then some ConfigFile.parentFile
  else if fs.home_env then some ConfigFile.homeFile
  else none

/-- The configuration-loading calls a command invocation can make. -/
inductive ConfigCall where
  | loadDotenvDefault
  | loadConfigCall
deriving DecidableEq, Repr

/-- The configuration-loading calls actually executed during a command
invocation, translated from the source: module import runs the bare
load_dotenv() on line 11, and no other statement in main.py (neither the cli
group callback nor any handler) calls load_config, which is defined at line
16 but never invoked. -/
def invocation_config_calls : List ConfigCall := [ConfigCall.loadDotenvDefault]

/-! ## Client factory (main.py lines 29-45) -/

/-- The process environment as read through os.getenv: each variable is
either unset (none) or set to a string. -/
structure Env where
  host : Option String
  port : Option String
  ssl : Option String
  token : Option String
  url : Option String
deriving DecidableEq, Repr

/-- Python truthiness of an optional string: None and the empty string are
falsy, everything else truthy. -/
def truthy_str : Option String → Bool
  | none => false
  | some s => !(s == "")

/-- The client handle returned by get_client: a PersistentClient bound to a
storage path, or an HttpClient carrying host, port and auth credentials.
The source passes no TLS or SSL setting to HttpClient, so the http handle
has no TLS field. -/
inductive Client where
  | persistent (path : String)
  | http (host : String) (port : Int) (authToken : Option String)
deriving DecidableEq, Repr

/-- Value of a decimal digit character, none for a non-digit. -/
def digit_val (c : Char) : Option Nat :=
  if 48 ≤ c.toNat ∧ c.toNat ≤ 57 then some (c.toNat - 48) else none

/-- Accumulating decimal parse of a character list; none on any non-digit. -/
def parse_digits_aux : List Char → Nat → Option Nat
  | [], acc => some acc
  | c :: rest, acc =>
    match digit_val c with
    | some d => parse_digits_aux rest (10 * acc + d)
    | none => none

/-- Decimal parse of a whole string: none when empty or containing a
non-digit character. -/
def parse_nat (s : String) : Option Nat :=
  match s.data with
  | [] => none
  | cs => parse_digits_aux cs 0

/-- Port parsing in get_client (line 40): int(os.getenv(CHROMA_PORT, "8000")),
the default applied when the variable is unset. Modelled for the plain
nonnegative numeral forms of int(); its other accepted forms (sign,
surrounding whitespace, underscores) are outside the modelled scope. none
models the ValueError int raises on a non-numeric value, which no code
catches. -/
def parse_port (port : Option String) : Option Int :=
  (parse_nat (port.getD "8000")).map Int.ofNat

/-- Translation of get_client (main.py lines 29-45). It reads CHROMA_HOST and
CHROMA_TOKEN; if not host (unset or empty) it returns a PersistentClient at
the fixed path ./chroma_data, otherwise an HttpClient with the host, the
parsed CHROMA_PORT (default 8000) and the token credentials. CHROMA_URL and
CHROMA_SSL are never read here. none models the uncaught crash on an
unparsable port. The yellow informational print in the local branch is
presentation only and is not part of the returned handle. -/
def get_client (env : Env) : Option Client :=
  match env.host with
  | none => some (Client.persistent "./chroma_data")
  | some h =>
    if h == "" then some (Client.persistent "./chroma_data")
    else
      match parse_port env.port with
      | some p => some (Client.http h p env.token)
      | none => none

/-! ## Verbose environment echo (main.py lines 55-60) -/

/-- Rendering of os.getenv inside an f-string: None prints as the text None,
a set value prints verbatim. -/
def show_env : Option String → String
  | none => "None"
  | some s => s

/-- Translation of the verbose branch of the cli group callback (lines
55-60): it echoes CHROMA_URL, CHROMA_HOST, CHROMA_PORT and CHROMA_SSL.
CHROMA_TOKEN is never read by this code. -/
def verbose_lines (env : Env) : List String :=
  ["[blue]Environment:[/blue]",
   "CHROMA_URL: " ++ show_env env.url,
   "CHROMA_HOST: " ++ show_env env.host,
   "CHROMA_PORT: " ++ show_env env.port,
   "CHROMA_SSL: " ++ show_env env.ssl]

/-! ## create (main.py lines 63-94) -/

/-- Resolution of the embedding-provider option (lines 66-67): click
substitutes the default openai when the user did not supply a value. -/
def resolve_provider (supplied : Option String) : String :=
  supplied.getD "openai"

/-- Metadata dictionary built by create (lines 74-80): the hnsw:space key
from the distance option and the embedding_provider key are always present;
embedding_model is appended only when the option value is truthy (supplied
and non-empty). -/
def create_metadata (distance provider : String) (model : Option String) :
    List (String × String) :=
  let base := [("hnsw:space", distance), ("embedding_provider", provider)]
  match model with
  | some m => if m == "" then base else base ++ [("embedding_model", m)]
  | none => base

/-- The create handler (lines 69-94) as a function of the create_collection
call result. On success it renders the confirmation lines (the model line
only when the option is truthy); a raised error is caught and rendered. -/
def create (res : Except String Unit) (name distance provider : String)
    (model : Option String) : Outcome :=
  match res with
  | Except.ok _ =>
    ⟨[Line.info ("[green]Created collection " ++ squote ++ name ++ squote ++ ":"),
      Line.info ("  Distance metric: " ++ distance),
      Line.info ("  Embedding provider: " ++ provider)] ++
     (match model with
      | some m => if m == "" then [] else [Line.info ("  Embedding model: " ++ m)]
      | none => []),
     false, 0⟩
  | Except.error e => handled_error_outcome e

/-! ## delete (main.py lines 97-106) -/

/-- The delete handler as a function of the delete_collection call result. -/
def delete (res : Except String Unit) (name : String) : Outcome :=
  match res with
  | Except.ok _ =>
    ⟨[Line.info ("[green]Deleted collection " ++ squote ++ name ++ squote)], false, 0⟩
  | Except.error e => handled_error_outcome e

/-! ## list (main.py lines 109-132) -/

/-- The row-building loop of the list handler (lines 124-130): for each
collection reference, get_collection plus count produce the count cell
(their two calls are folded into one Except per collection); a raised
error anywhere in the loop aborts the whole handler, since list has no
try block. -/
def buildRows : List (String × Except String Nat) →
    Except String (List (List String))
  | [] => Except.ok []
  | (n, c) :: rest =>
    match c with
    | Except.error e => Except.error e
    | Except.ok k =>
      match buildRows rest with
      | Except.error e => Except.error e
      | Except.ok rs => Except.ok ([n, toString k] :: rs)

/-- The list handler (lines 109-132) as a function of the list_collections
result paired with each per-collection count result. There is no try/except
in this handler: any raised error escapes as an uncaught crash. An empty
collection list yields the yellow notice; otherwise the table is rendered
only after every row was built. -/
def list_collections
    (res : Except String (List (String × Except String Nat))) : Outcome :=
  match res with
  | Except.error _ => crash_outcome
  | Except.ok cols =>
    if cols.isEmpty then ⟨[Line.info "[yellow]No collections found"], false, 0⟩
    else
      match buildRows cols with
      | Except.error _ => crash_outcome
      | Except.ok rows => ⟨[Line.table ["Name", "Count"] rows], false, 0⟩

/-! ## peek (main.py lines 135-166) -/

/-- Result shape of Collection.get as used by peek: parallel flat lists of
ids, documents and metadata cells. A metadata entry is modelled as its
pretty-printed rendering when truthy, none when falsy (None or empty). -/
structure GetResult where
  ids : List String
  documents : List String
  metadatas : List (Option String)
deriving DecidableEq, Repr

/-- Behaviour of the collaborator calls made inside the try block of peek:
get_collection can raise, Collection.get can raise, or both succeed and the
later Collection.count call (line 163) yields its own result. -/
inductive PeekCollab where
  | getColError (e : String)
  | getError (e : String)
  | ok (r : GetResult) (countRes : Except String Nat)
deriving Repr

/-- Document preview computed by peek (lines 154-156) and search (lines
192-194): the first 100 characters followed by an ellipsis when the text is
longer than 100 characters, the text unmodified otherwise. -/
def doc_preview (s : String) : String :=
  if s.length > 100 then s.take 100 ++ "..." else s

/-- Metadata cell of a peek row (lines 157-158): the pretty-printed metadata
when truthy, the empty string otherwise. -/
def metadata_cell : Option String → String
  | some m => m
  | none => ""

/-- Rows of the peek table (lines 154-159), one per id, indexing the
parallel documents and metadatas lists; the source assumes the parallel
lists are at least as long as ids (an out-of-range access would raise). -/
def peek_rows (r : GetResult) : List (List String) :=
  (List.range r.ids.length).map (fun i =>
    [r.ids.getD i "",
     metadata_cell (r.metadatas.getD i none),
     doc_preview (r.documents.getD i "")])

/-- The peek handler (lines 138-166). An empty ids list yields the yellow
notice and a normal return. Otherwise the table is rendered, then the
footer calls Collection.count: if that call raises, the table has already
been rendered and the except block prints the error line; in every case the
handler returns normally and the process exits 0. -/
def peek (c : PeekCollab) : Outcome :=
  match c with
  | PeekCollab.getColError e => handled_error_outcome e
  | PeekCollab.getError e => handled_error_outcome e
  | PeekCollab.ok r countRes =>
    if r.ids.isEmpty then ⟨[Line.info "[yellow]Collection is empty"], false, 0⟩
    else
      match countRes with
      | Except.ok total =>
        ⟨[Line.table ["ID", "Metadata", "Document Preview"] (peek_rows r),
          Line.info ("\nShowing " ++ toString r.ids.length ++ " of " ++
                     toString total ++ " total items")], false, 0⟩
      | Except.error e =>
        ⟨[Line.table ["ID", "Metadata", "Document Preview"] (peek_rows r),
          error_line e], false, 0⟩

/-! ## search (main.py lines 169-204) -/

/-- Result shape of Collection.query as used by search: one inner list per
query text (the handler always passes exactly one query text), so a query
with zero matching records returns singleton outer lists whose inner lists
are empty. Distances are modelled as their 4-decimal rendered strings,
since only their placement in the table is observed. -/
structure QueryResult where
  ids : List (List String)
  documents : List (List String)
  distances : List (List String)
deriving DecidableEq, Repr

/-- Behaviour of the collaborator calls made inside the try block of search:
get_collection can raise, Collection.query can raise, or the query returns. -/
inductive SearchCollab where
  | getColError (e : String)
  | queryError (e : String)
  | ok (r : QueryResult)
deriving DecidableEq, Repr

/-- Rows of the search table (lines 192-199), indexing the first inner list
of each parallel nested list, as the source does with ids[0][i],
distances[0][i] and documents[0][i]. -/
def search_rows (r : QueryResult) : List (List String) :=
  (List.range (r.ids.headD []).length).map (fun i =>
    [(r.ids.headD []).getD i "",
     (r.distances.headD []).getD i "",
     doc_preview ((r.documents.headD []).getD i "")])

/-- The search handler (lines 173-204). The emptiness guard on line 183
tests the OUTER ids list (if not results with key ids); only when that list
itself is empty is the yellow notice rendered. Otherwise the table is built
over the first inner list, which may be empty. -/
def search (c : SearchCollab) : Outcome :=
  match c with
  | SearchCollab.getColError e => handled_error_outcome e
  | SearchCollab.queryError e => handled_error_outcome e
  | SearchCollab.ok r =>
    if r.ids.isEmpty then ⟨[Line.info "[yellow]No results found"], false, 0⟩
    else
      ⟨[Line.table ["ID", "Distance", "Document Preview"] (search_rows r)],
       false, 0⟩

/-! ## stats (main.py lines 207-234) -/

/-- Behaviour of the collaborator calls made inside the try block of stats:
get_collection can raise, Collection.get can raise, or both succeed,
yielding the embeddings of the limit-1 get (None and the empty list are
both falsy and are modelled as the empty list; vector entries are modelled
as Int since only the length of the first vector is observed), the count,
and the collection metadata mapping. -/
inductive StatsCollab where
  | getColError (e : String)
  | getError (e : String)
  | ok (embeddings : List (List Int)) (count : Nat)
       (metadata : List (String × String))
deriving DecidableEq, Repr

/-- Embedding-dimension cell of stats (lines 216-219): the length of the
first returned embedding when the embeddings list is truthy, the fixed
Unknown text otherwise. -/
def embedding_dim_str : List (List Int) → String
  | [] => "Unknown (empty collection)"
  | e :: _ => toString e.length

/-- Python dict.get with a default, used for the metadata mapping. -/
def dict_get (m : List (String × String)) (k d : String) : String :=
  match m.find? (fun p => p.fst == k) with
  | some p => p.snd
  | none => d

/-- Rows of the stats panel (lines 221-225): total item count, embedding
dimensionality, and the distance metric read from the metadata mapping with
default l2. -/
def stats_rows (embeddings : List (List Int)) (count : Nat)
    (metadata : List (String × String)) : List (List String) :=
  [["Total Items", toString count],
   ["Embedding Dimensions", embedding_dim_str embeddings],
   ["Distance Metric", dict_get metadata "hnsw:space" "l2"]]

/-- The stats handler (lines 209-234): on success it renders the titled
panel; a raised error is caught and rendered as the single red error line,
after which the handler returns normally and the process exits 0. -/
def stats (name : String) (c : StatsCollab) : Outcome :=
  match c with
  | StatsCollab.getColError e => handled_error_outcome e
  | StatsCollab.getError e => handled_error_outcome e
  | StatsCollab.ok embeddings count metadata =>
    ⟨[Line.panel ("Collection Stats: " ++ name)
        (stats_rows embeddings count metadata)], false, 0⟩

/-- A 101-character document used to exercise the truncation rule. -/
def long_doc : String := String.mk (List.replicate 101 'a')

/-! ## Helper lemmas -/

/-- When any per-collection count in the list raises, buildRows propagates an
error instead of producing rows. -/
theorem buildRows_mem_error (cols : List (String × Except String Nat))
    (nm e : String) (h : (nm, Except.error e) ∈ cols) :
    ∃ e2, buildRows cols = Except.error e2 := by
  induction cols with
  | nil => cases h
  | cons hd tl ih =>
    obtain ⟨n, c⟩ := hd
    cases c with
    | error e0 => exact ⟨e0, rfl⟩
    | ok k =>
      rw [List.mem_cons] at h
      rcases h with heq | htl
      · exact absurd (congrArg Prod.snd heq) (by simp)
      · obtain ⟨e2, h2⟩ := ih htl
        exact ⟨e2, by simp [buildRows, h2]⟩

/-! ## Claim theorems -/

/-- C1 counterexample: the claim says a handler whose collaborator call
raises exits with a NON-ZERO status after rendering the single error line.
At the concrete input where create_collection raises a connection error, the
create handler renders the single error line but the process exits with
status 0, refuting the claim as stated. -/
theorem c1_counterexample :
    (create (Except.error "connection refused") "docs" "l2" "openai" none).lines
        = [error_line "connection refused"]
    ∧ (create (Except.error "connection refused") "docs" "l2" "openai" none).exitCode
        = 0 :=
  ⟨rfl, rfl⟩

/-- C1 amended: for the handlers that catch (create, delete, peek, search,
stats), a collaborator-raised error is rendered as a single user-visible
error line and the process exits with status 0, not a non-zero status; the
list handler does not catch at all, so its collaborator errors escape as an
uncaught crash with exit status 1 and no rendered error line. -/
theorem c1_amended : ∀ (e name distance provider : String) (model : Option String),
    create (Except.error e) name distance provider model = handled_error_outcome e
    ∧ delete (Except.error e) name = handled_error_outcome e
    ∧ peek (PeekCollab.getColError e) = handled_error_outcome e
    ∧ peek (PeekCollab.getError e) = handled_error_outcome e
    ∧ search (SearchCollab.getColError e) = handled_error_outcome e
    ∧ search (SearchCollab.queryError e) = handled_error_outcome e
    ∧ stats name (StatsCollab.getColError e) = handled_error_outcome e
    ∧ stats name (StatsCollab.getError e) = handled_error_outcome e
    ∧ (handled_error_outcome e).lines = [error_line e]
    ∧ (handled_error_outcome e).exitCode = 0
    ∧ (list_collections (Except.error e)).crashed = true
    ∧ (list_collections (Except.error e)).exitCode = 1 := by
  intro e name distance provider model
  exact ⟨rfl, rfl, rfl, rfl, rfl, rfl, rfl, rfl, rfl, rfl, rfl, rfl⟩

/-- C2 counterexample: the claim says every handler, including list with its
per-collection get_collection and count calls, converts a collaborator error
into a displayed error and never an uncaught crash. At the concrete input
where the per-collection call for the single listed collection raises, the
list handler crashes uncaught, displaying nothing. -/
theorem c2_counterexample :
    (list_collections
        (Except.ok [("docs", Except.error "collection not found")])).crashed = true
    ∧ (list_collections
        (Except.ok [("docs", Except.error "collection not found")])).lines = [] :=
  ⟨rfl, rfl⟩

/-- C2 amended: the create, delete, peek, search and stats handlers catch
any collaborator-raised error and display it as the single red error line
without crashing; the list handler has no try block, so an error raised by
list_collections, or by any per-collection get_collection or count call,
escapes as an uncaught process crash. -/
theorem c2_amended : ∀ (e nm name distance provider : String)
    (model : Option String) (cols : List (String × Except String Nat)),
    ((nm, Except.error e) ∈ cols →
        (list_collections (Except.ok cols)).crashed = true)
    ∧ (create (Except.error e) name distance provider model).lines = [error_line e]
    ∧ (create (Except.error e) name distance provider model).crashed = false
    ∧ (delete (Except.error e) name).lines = [error_line e]
    ∧ (delete (Except.error e) name).crashed = false
    ∧ (peek (PeekCollab.getColError e)).lines = [error_line e]
    ∧ (peek (PeekCollab.getColError e)).crashed = false
    ∧ (search (SearchCollab.getColError e)).lines = [error_line e]
    ∧ (search (SearchCollab.getColError e)).crashed = false
    ∧ (stats name (StatsCollab.getColError e)).lines = [error_line e]
    ∧ (stats name (StatsCollab.getColError e)).crashed = false
    ∧ (list_collections (Except.error e)).crashed = true := by
  intro e nm name distance provider model cols
  refine ⟨?_, rfl, rfl, rfl, rfl, rfl, rfl, rfl, rfl, rfl, rfl, rfl⟩
  intro hmem
  obtain ⟨e2, h2⟩ := buildRows_mem_error cols nm e hmem
  cases cols with
  | nil => cases hmem
  | cons hd tl => simp [list_collections, h2, crash_outcome]

/-- C2 witness: the amended list-handler crash applied at a concrete
one-collection listing whose count call raises. -/
theorem c2_witness :
    (list_collections (Except.ok [("docs", Except.error "boom")])).crashed = true :=
  (c2_amended "boom" "docs" "x" "l2" "openai" none
      [("docs", Except.error "boom")]).1 (List.mem_cons_self _ _)

/-- C3 counterexample: the claim says an environment with a URL configured
selects remote mode. With CHROMA_URL set and CHROMA_HOST unset, get_client
returns the local persistent client, refuting the claim as stated. -/
theorem c3_counterexample :
    get_client ⟨none, none, none, none, some "https://db.example.com:8443"⟩
        = some (Client.persistent "./chroma_data") := rfl

/-- C3 amended: mode selection depends only on CHROMA_HOST. When the host is
unset or empty, get_client returns the local persistent client bound to the
fixed path ./chroma_data; when the host is set non-empty and the port
parses, it returns the network client carrying host, port (default 8000)
and auth token. CHROMA_URL is ignored and no TLS flag is passed. -/
theorem c3_amended : ∀ env : Env,
    (truthy_str env.host = false →
        get_client env = some (Client.persistent "./chroma_data"))
    ∧ (∀ h p, env.host = some h → h ≠ "" → parse_port env.port = some p →
        get_client env = some (Client.http h p env.token)) := by
  intro env
  constructor
  · intro ht
    cases hh : env.host with
    | none => simp [get_client, hh]
    | some s =>
      rw [hh] at ht
      simp [truthy_str] at ht
      subst ht
      simp [get_client, hh]
  · intro h p hh hne hp
    have hb : (h == "") = false := beq_eq_false_iff_ne.mpr hne
    simp [get_client, hh, hb, hp]

/-- C3 witness: the amended theorem applied at a concrete remote environment
and at a concrete host-less environment. -/
theorem c3_witness :
    get_client ⟨some "db.internal", some "9000", none, some "secret-token", none⟩
        = some (Client.http "db.internal" 9000 (some "secret-token"))
    ∧ get_client ⟨none, none, none, some "secret-token", none⟩
        = some (Client.persistent "./chroma_data") :=
  ⟨(c3_amended ⟨some "db.internal", some "9000", none, some "secret-token", none⟩).2
      "db.internal" 9000 rfl (by decide) (by decide),
   (c3_amended ⟨none, none, none, some "secret-token", none⟩).1 rfl⟩

/-- C4: the document preview computed by peek and search equals the first
100 characters followed by the ellipsis marker when the document is longer
than 100 characters, and equals the document unmodified otherwise. -/
theorem c4_preview : ∀ s : String,
    (100 < s.length → doc_preview s = s.take 100 ++ "...")
    ∧ (s.length ≤ 100 → doc_preview s = s) := by
  intro s
  constructor
  · intro hlen
    unfold doc_preview
    rw [if_pos hlen]
  · intro hlen
    unfold doc_preview
    rw [if_neg (by omega)]

/-- C4 witness: the truncation rule applied at a concrete 101-character
document and a concrete short document. -/
theorem c4_witness :
    doc_preview long_doc = long_doc.take 100 ++ "..."
    ∧ doc_preview "short" = "short" :=
  ⟨(c4_preview long_doc).1 (by decide), (c4_preview "short").2 (by decide)⟩

/-- C5: the claim says a search whose collaborator query returns zero
matching records renders the no-results notice and exits 0. The query of
one text with zero matches returns singleton outer lists with empty inner
lists; on that input the handler renders an empty results table, not the
notice, because the emptiness guard tests the outer ids list. The process
does exit with status 0. This theorem evaluates the code at the failing
input, exhibiting the divergence. -/
theorem c5_code_eval :
    search (SearchCollab.ok ⟨[[]], [[]], [[]]⟩)
        = ⟨[Line.table ["ID", "Distance", "Document Preview"] []], false, 0⟩
    ∧ Line.info "[yellow]No results found"
        ∉ (search (SearchCollab.ok ⟨[[]], [[]], [[]]⟩)).lines := by
  constructor
  · rfl
  · decide

/-- C6 counterexample: the claim says the embedding-provider field is added
only when the user supplied it. When the user supplies nothing, click
substitutes the default openai and the handler still writes the
embedding_provider key into the metadata, refuting the claim as stated. -/
theorem c6_counterexample :
    resolve_provider none = "openai"
    ∧ ("embedding_provider", "openai")
        ∈ create_metadata "l2" (resolve_provider none) none := by
  constructor
  · rfl
  · decide

/-- C6 amended: the metadata passed to create_collection always includes the
distance key and always includes the embedding_provider key (defaulting to
openai when not supplied); the embedding_model key is added exactly when a
non-empty model value was supplied. -/
theorem c6_amended : ∀ (distance provider : String) (model : Option String),
    ("hnsw:space", distance) ∈ create_metadata distance provider model
    ∧ ("embedding_provider", provider) ∈ create_metadata distance provider model
    ∧ (∀ m, model = some m → m ≠ "" →
        ("embedding_model", m) ∈ create_metadata distance provider model)
    ∧ (model = none →
        ∀ v, ("embedding_model", v) ∉ create_metadata distance provider model)
    ∧ resolve_provider none = "openai" := by
  intro distance provider model
  refine ⟨?_, ?_, ?_, ?_, rfl⟩
  · cases model with
    | none => simp [create_metadata]
    | some m =>
      cases hm : m == "" with
      | true => simp [create_metadata, hm]
      | false => simp [create_metadata, hm]
  · cases model with
    | none => simp [create_metadata]
    | some m =>
      cases hm : m == "" with
      | true => simp [create_metadata, hm]
      | false => simp [create_metadata, hm]
  · intro m hm hne
    subst hm
    have hb : (m == "") = false := beq_eq_false_iff_ne.mpr hne
    simp [create_metadata, hb]
  · intro hm v hmem
    subst hm
    simp only [create_metadata, List.mem_cons, List.not_mem_nil, or_false,
      Prod.mk.injEq] at hmem
    rcases hmem with ⟨h1, h2⟩ | ⟨h1, h2⟩
    · exact absurd h1 (by decide)
    · exact absurd h1 (by decide)

/-- C6 witness: the amended theorem applied at a concrete supplied model and
at a concrete invocation without a model. -/
theorem c6_witness :
    ("embedding_model", "text-embedding-3-small")
        ∈ create_metadata "cosine" "openai" (some "text-embedding-3-small")
    ∧ ("embedding_model", "x") ∉ create_metadata "l2" "openai" none :=
  ⟨(c6_amended "cosine" "openai" (some "text-embedding-3-small")).2.2.1
      "text-embedding-3-small" rfl (by decide),
   (c6_amended "l2" "openai" none).2.2.2.1 rfl "x"⟩

/-- C7: stats on a collection whose limit-1 get returns no embeddings
reports the dimensionality as the fixed Unknown text, never a numeric
value, and on a non-empty embeddings list reports the length of the first
returned embedding; the panel row rendered by the stats handler carries
exactly that value. -/
theorem c7_stats_dim : ∀ (name : String) (count : Nat)
    (md : List (String × String)) (v : List Int) (rest : List (List Int)),
    embedding_dim_str [] = "Unknown (empty collection)"
    ∧ embedding_dim_str (v :: rest) = toString v.length
    ∧ stats name (StatsCollab.ok [] count md)
        = ⟨[Line.panel ("Collection Stats: " ++ name) (stats_rows [] count md)],
           false, 0⟩
    ∧ (stats_rows [] count md).get? 1
        = some ["Embedding Dimensions", "Unknown (empty collection)"]
    ∧ (stats_rows (v :: rest) count md).get? 1
        = some ["Embedding Dimensions", toString v.length] := by
  intro name count md v rest
  exact ⟨rfl, rfl, rfl, rfl, rfl⟩

/-- C8 counterexample: the claim says the layered config-file resolution
takes effect for every command invocation. The configuration-loading calls
executed by an invocation consist only of the module-level bare
load_dotenv(); load_config is never called, refuting the claim as stated. -/
theorem c8_counterexample :
    ConfigCall.loadConfigCall ∉ invocation_config_calls := by decide

/-- C8 amended: load_config resolves, in priority order, the config file in
the current working directory, then the parent directory, then the fixed
home subdirectory, first found wins with no merging; but no command
invocation ever calls it, so the layered resolution does not take effect:
only the module-level load_dotenv() runs. -/
theorem c8_amended : ∀ fs : ConfigFS,
    (fs.cwd_env = true → load_config fs = some ConfigFile.cwdFile)
    ∧ (fs.cwd_env = false → fs.parent_env = true →
        load_config fs = some ConfigFile.parentFile)
    ∧ (fs.cwd_env = false → fs.parent_env = false → fs.home_env = true →
        load_config fs = some ConfigFile.homeFile)
    ∧ (fs.cwd_env = false → fs.parent_env = false → fs.home_env = false →
        load_config fs = none)
    ∧ ConfigCall.loadConfigCall ∉ invocation_config_calls := by
  intro fs
  refine ⟨?_, ?_, ?_, ?_, by decide⟩
  all_goals intros
  all_goals simp_all [load_config]

/-- C8 witness: the amended resolution applied at a concrete filesystem
where the working directory has no config file but both the parent and the
home subdirectory do: the parent file wins. -/
theorem c8_witness : load_config ⟨false, true, true⟩ = some ConfigFile.parentFile :=
  (c8_amended ⟨false, true, true⟩).2.1 rfl rfl

/-- C9: the verbose environment echo is a function of CHROMA_URL,
CHROMA_HOST, CHROMA_PORT and CHROMA_SSL only; two runs whose environments
differ only in CHROMA_TOKEN produce identical verbose output, so the token
value never flows into the echoed lines. -/
theorem c9_noninterference : ∀ (env : Env) (t1 t2 : Option String),
    verbose_lines { env with token := t1 }
        = verbose_lines { env with token := t2 } := by
  intro env t1 t2
  rfl

/-- C10: when the collection metadata mapping lacks the hnsw:space key, the
distance metric displayed by stats is the default l2, both as the value
computed by dict_get and in the rendered panel row. -/
theorem c10_default_metric : ∀ md : List (String × String),
    (∀ p ∈ md, p.1 ≠ "hnsw:space") →
    dict_get md "hnsw:space" "l2" = "l2"
    ∧ ∀ count : Nat,
        (stats_rows [] count md).get? 2 = some ["Distance Metric", "l2"] := by
  intro md h
  have hf : md.find? (fun p => p.fst == "hnsw:space") = none := by
    rw [List.find?_eq_none]
    intro x hx
    simpa using h x hx
  have hd : dict_get md "hnsw:space" "l2" = "l2" := by
    simp [dict_get, hf]
  exact ⟨hd, fun count => by simp [stats_rows, hd]⟩

/-- C10 witness: the default distance metric at a concrete metadata mapping
without the hnsw:space key. -/
theorem c10_witness :
    dict_get [("embedding_provider", "openai")] "hnsw:space" "l2" = "l2" :=
  (c10_default_metric [("embedding_provider", "openai")] (by decide)).1

end Chroma
